import Mathlib

/-!
Verification development for the libterminal core of the contour terminal
emulator.  The definitions below are a shallow embedding of the C++ sources
`src/terminal/Grid.h` and `src/terminal/Sequencer.h`:

* `Cell`, `Line`, `Grid` together with `Grid.atCoord` (the C++ `Grid::at`),
  `Grid.toAbsoluteLine`, `Grid.toRelativeLine`, `Grid.render`;
* the VT mode tables `AnsiMode` / `DECMode` with `toAnsiModeNum`,
  `isValidAnsiMode`, `toDECModeNum`, `isValidDECMode`;
* the `Sequence` record with `param_opt`, `param_or`, `selector` and `clear`.

C++ machine integers are modelled as `Int` (with explicit `% 256` where the
source stores into a `uint8_t`), strings as lists, fallible container
accesses as `Option`.
-/

namespace Contour

/-- Colors live in `terminal/Color.h`, which is not among the provided
sources.  Modelled from the spec: "Colors are variants over
{Default, Indexed(0..255), BrightIndexed(0..7), RGB(r,g,b)}". -/
inductive Color where
  | Default : Color
  | Indexed : Nat → Color
  | BrightIndexed : Nat → Color
  | RGB : Nat → Nat → Nat → Color
deriving DecidableEq

/-- Models `GraphicsAttributes` from `Grid.h`: three color slots plus the
`CellFlags` style bitset (a `uint32_t`, modelled as a `Nat` bit pattern).
The defaults mirror the C++ member initializers (`DefaultColor()`, empty
flag set). -/
structure GraphicsAttributes where
  foregroundColor : Color := Color.Default
  backgroundColor : Color := Color.Default
  underlineColor : Color := Color.Default
  styles : Nat := 0
deriving DecidableEq

/-- Models `HyperlinkRef`, a shared pointer into the hyperlink store
(`terminal/Hyperlink.h`, not among the provided sources); only nullness and
identity of the referenced entry matter here, so it is modelled as an
optional abstract identifier. -/
abbrev HyperlinkRef := Option Nat

/-- Models `ImageFragment` (`terminal/Image.h`, not among the provided sources);
only presence and identity matter here, so it is modelled as an abstract
identifier. -/
abbrev ImageFragment := Nat

/-- Models `Cell` from `Grid.h`: the codepoint sequence (`std::u32string`, with
codepoints as `Nat`), the display width (`uint8_t`), the graphics
attributes, the optional hyperlink (`LIBTERMINAL_HYPERLINKS`) and the
optional image fragment (`LIBTERMINAL_IMAGES`).  The defaults mirror the
default constructor `Cell()`. -/
structure Cell where
  codepoints : List Nat := []
  width : Nat := 1
  attributes : GraphicsAttributes := {}
  hyperlink : HyperlinkRef := none
  imageFragment : Option ImageFragment := none
deriving DecidableEq

namespace Cell

/-- Models `Cell::MaxCodepoints`. -/
def MaxCodepoints : Nat := 9

/-- The converting constructor `Cell(char32_t, GraphicsAttributes)`.
`uwidth` stands for `unicode::width` from the external unicode library
(an `int`-valued width function, arbitrary here). -/
def make (uwidth : Nat → Int) (cp : Nat) (attrib : GraphicsAttributes) : Cell :=
  if cp ≠ 0 then
    { codepoints := [cp]
      width := (max (uwidth cp) 1).toNat % 256
      attributes := attrib }
  else
    { codepoints := [], width := 1, attributes := attrib }

/-- Models `Cell::reset(GraphicsAttributes)`. -/
def reset (attrib : GraphicsAttributes) (_c : Cell) : Cell :=
  { attributes := attrib
    width := 1
    hyperlink := none
    codepoints := []
    imageFragment := none }

/-- Models `Cell::codepointCount()`. -/
def codepointCount (c : Cell) : Nat := c.codepoints.length

/-- Models `Cell::setCharacter(char32_t)`. -/
def setCharacter (uwidth : Nat → Int) (c : Cell) (cp : Nat) : Cell :=
  let c := { c with imageFragment := none }
  if cp ≠ 0 then
    { c with codepoints := [cp], width := (max (uwidth cp) 1).toNat % 256 }
  else
    { c with codepoints := [], width := 1 }

/-- Models `Cell::setWidth(int)`: the `int` argument is stored into the
`uint8_t` member, i.e. taken modulo 256. -/
def setWidth (c : Cell) (w : Int) : Cell :=
  { c with width := (w % 256).toNat }

/-- Models `Cell::setAttributes`. -/
def setAttributes (c : Cell) (attrib : GraphicsAttributes) : Cell :=
  { c with attributes := attrib }

/-- Models `Cell::setImage(ImageFragment)`. -/
def setImage (c : Cell) (frag : ImageFragment) : Cell :=
  { c with imageFragment := some frag, width := 1, codepoints := [] }

/-- Models `Cell::appendCharacter(char32_t)`: returns the width delta (the C++
`int` return value) together with the updated cell.  `AllowWidthChange`
is the compile-time constant `false` from the source. -/
def appendCharacter (uwidth : Nat → Int) (c : Cell) (cp : Nat) : Int × Cell :=
  let c := { c with imageFragment := none }
  if c.codepoints.length < MaxCodepoints then
    let c := { c with codepoints := c.codepoints ++ [cp] }
    let AllowWidthChange : Bool := false
    let width : Int :=
      if cp = 0xFE0E then 1
      else if cp = 0xFE0F then 2
      else uwidth cp
    if width ≠ (c.width : Int) ∧ AllowWidthChange = true then
      (width - (c.width : Int), { c with width := (width % 256).toNat })
    else
      (0, c)
  else
    (0, c)

end Cell

/-- The free function `operator==(Cell const&, Cell const&)` from `Grid.h`:
compares codepoint count, attributes, and the codepoints pointwise; the
width, hyperlink and image members are not read. -/
def cellEq (a b : Cell) : Bool :=
  if a.codepointCount ≠ b.codepointCount then false
  else if ¬ (a.attributes = b.attributes) then false
  else (List.range a.codepointCount).all fun i =>
    a.codepoints.getD i 0 = b.codepoints.getD i 0

/-- Models `crispy::Size` from `crispy/size.h` (not among the provided sources):
a pair of `int` members `width` and `height`, used as the screen size. -/
structure Size where
  width : Int
  height : Int
deriving DecidableEq

/-- Models `Line` from `Grid.h`: a buffer of cells plus the `Flags` bitset
(`Wrappable = 1`, `Wrapped = 2`, `Marked = 4`), stored as an `unsigned`. -/
structure Line where
  buffer : List Cell := []
  flags : Nat := 0
deriving DecidableEq

/-- Models `Line::size()`: the number of cells, as a C++ `int`. -/
def Line.size (l : Line) : Int := l.buffer.length

/-- Models `Grid` from `Grid.h`: the screen size, the reflow flag, the optional
history bound, and the deque of lines (scrollback followed by the main
page). -/
structure Grid where
  screenSize : Size
  reflowOnResize : Bool := false
  maxHistoryLineCount : Option Int := none
  lines : List Line := []
deriving DecidableEq

/-- Indexing a sequence by a C++ `int`: `none` on any out-of-range access
(where the C++ iterator arithmetic would be undefined). -/
def intNth (l : List α) (i : Int) : Option α :=
  if 0 ≤ i then l[i.toNat]? else none

namespace Grid

/-- Models `Grid::historyLineCount()`:
`static_cast<int>(lines_.size()) - screenSize_.height`. -/
def historyLineCount (g : Grid) : Int :=
  (g.lines.length : Int) - g.screenSize.height

/-- Models `Grid::toAbsoluteLine(int)`. -/
def toAbsoluteLine (g : Grid) (relativeLine : Int) : Int :=
  g.historyLineCount + relativeLine - 1

/-- Models `Grid::toRelativeLine(int)`. -/
def toRelativeLine (g : Grid) (absoluteLine : Int) : Int :=
  absoluteLine - g.historyLineCount

/-- Models `Grid::at(Coordinate)` (named `atCoord` because `at` is a Lean
keyword).  The `row > 0` branch reads
`*next(lines_.rbegin(), screenSize_.height - row)`, i.e. position
`height - row` of the reversed deque; the other branch reads
`*next(lines_.begin(), historyLineCount() + row - 1)`.  Both then index
the line's cell buffer at `column - 1`.  The source asserts the
coordinate bounds; out-of-range accesses are modelled as `none`. -/
def atCoord (g : Grid) (row col : Int) : Option Cell :=
  (if row > 0 then
    intNth g.lines.reverse (g.screenSize.height - row)
  else
    intNth g.lines (g.historyLineCount + row - 1)).bind
  fun line => intNth line.buffer (col - 1)

/-- Reading column `col` (1-based) of the absolute (0-based) line `a` of
the grid.  This is the spec-side description of what `Grid::at` should
return; the claim theorem compares `atCoord` against it. -/
def absoluteRead (g : Grid) (a col : Int) : Option Cell :=
  (intNth g.lines a).bind fun line => intNth line.buffer (col - 1)

/-- Models `Grid::pageAtScrollOffset` (const overload, as used by `render`):
the `screenSize_.height` lines starting at absolute position
`_scrollOffset.value_or(historyLineCount())`. -/
def pageAtScrollOffset (g : Grid) (scrollOffset : Option Int) : List Line :=
  (g.lines.drop (scrollOffset.getD g.historyLineCount).toNat).take
    g.screenSize.height.toNat

/-- Models `crispy::times(start, count)` from `crispy/times.h` (not among the
provided sources): the arithmetic sequence
`start, start+1, ..., start+count-1`. -/
def crispyTimes (start count : Int) : List Int :=
  (List.range count.toNat).map fun (i : Nat) => start + (i : Int)

/-- Models `crispy::indexed(container, first)` from `crispy/indexed.h` (not among
the provided sources): pairs each element with its running index, the
first element getting index `first`. -/
def crispyIndexed (first : Int) : List α → List (Int × α)
  | [] => []
  | x :: xs => (first, x) :: crispyIndexed (first + 1) xs

/-- The body of the outer loop of `Grid::render` for one page line: the
existing cells of the line with 1-based column numbers, followed by one
default-constructed `Cell{}` for each padding column
`line.size()+1 .. line.size() + max(0, screenSize_.width - line.size())`. -/
def rowEvents (g : Grid) (rowNumber : Int) (line : Line) :
    List (Int × Int × Cell) :=
  ((crispyIndexed 1 line.buffer).map fun cc => (rowNumber, cc.1, cc.2))
    ++ ((crispyTimes (line.size + 1) (max 0 (g.screenSize.width - line.size))).map
        fun colNumber => (rowNumber, colNumber, ({} : Cell)))

/-- Models `Grid::render(callback, scrollOffset)`: the list of
`(row, column, cell)` triples passed to the callback, in call order. -/
def render (g : Grid) (scrollOffset : Option Int) : List (Int × Int × Cell) :=
  (crispyIndexed 1 (g.pageAtScrollOffset scrollOffset)).flatMap
    fun rl => g.rowEvents rl.1 rl.2

end Grid

/-- Models `AnsiMode` from `Sequencer.h`: a scoped enum whose enumerators carry
their VT mode numbers explicitly (`KeyboardAction = 2`, `Insert = 4`,
`SendReceive = 12`, `AutomaticNewLine = 20`). -/
inductive AnsiMode where
  | KeyboardAction
  | Insert
  | SendReceive
  | AutomaticNewLine
deriving DecidableEq

/-- The underlying C++ enumerator value of each `AnsiMode` constant. -/
def AnsiMode.enumValue : AnsiMode → Int
  | AnsiMode.KeyboardAction => 2
  | AnsiMode.Insert => 4
  | AnsiMode.SendReceive => 12
  | AnsiMode.AutomaticNewLine => 20

/-- Models `toAnsiModeNum(AnsiMode)` from `Sequencer.h`. -/
def toAnsiModeNum : AnsiMode → Int
  | AnsiMode.KeyboardAction => 2
  | AnsiMode.Insert => 4
  | AnsiMode.SendReceive => 12
  | AnsiMode.AutomaticNewLine => 20

/-- All `AnsiMode` enumerators, in the order of the `case` labels of
`isValidAnsiMode`. -/
def ansiModeCases : List AnsiMode :=
  [AnsiMode.KeyboardAction, AnsiMode.Insert, AnsiMode.SendReceive,
   AnsiMode.AutomaticNewLine]

/-- Models `isValidAnsiMode(int)` from `Sequencer.h`: a `switch` over
`static_cast<AnsiMode>(_mode)`, i.e. the input is compared against the
underlying enumerator value of each listed `case` label. -/
def isValidAnsiMode (mode : Int) : Bool :=
  ansiModeCases.any fun m => m.enumValue == mode

/-- Models `DECMode` from `Sequencer.h`.  The first 27 enumerators carry no
explicit value, so their underlying C++ values are 0..26 in declaration
order; the last six are declared with explicit values (`MouseExtended =
1005`, `MouseSGR = 1006`, `MouseURXVT = 1015`, `MouseAlternateScroll =
1007`, `BatchedRendering = 2026`, `TextReflow = 2027`). -/
inductive DECMode where
  | UseApplicationCursorKeys
  | DesignateCharsetUSASCII
  | Columns132
  | SmoothScroll
  | ReverseVideo
  | MouseProtocolX10
  | MouseProtocolNormalTracking
  | MouseProtocolHighlightTracking
  | MouseProtocolButtonTracking
  | MouseProtocolAnyEventTracking
  | SaveCursor
  | ExtendedAltScreen
  | Origin
  | AutoWrap
  | PrinterExtend
  | LeftRightMargin
  | ShowToolbar
  | BlinkingCursor
  | VisibleCursor
  | ShowScrollbar
  | AllowColumns80to132
  | DebugLogging
  | UseAlternateScreen
  | BracketedPaste
  | FocusTracking
  | SixelScrolling
  | UsePrivateColorRegisters
  | MouseExtended
  | MouseSGR
  | MouseURXVT
  | MouseAlternateScroll
  | BatchedRendering
  | TextReflow
deriving DecidableEq

/-- The underlying C++ enumerator value of each `DECMode` constant:
0..26 for the implicitly valued enumerators in declaration order, then
the six explicit values. -/
def DECMode.enumValue : DECMode → Int
  | DECMode.UseApplicationCursorKeys => 0
  | DECMode.DesignateCharsetUSASCII => 1
  | DECMode.Columns132 => 2
  | DECMode.SmoothScroll => 3
  | DECMode.ReverseVideo => 4
  | DECMode.MouseProtocolX10 => 5
  | DECMode.MouseProtocolNormalTracking => 6
  | DECMode.MouseProtocolHighlightTracking => 7
  | DECMode.MouseProtocolButtonTracking => 8
  | DECMode.MouseProtocolAnyEventTracking => 9
  | DECMode.SaveCursor => 10
  | DECMode.ExtendedAltScreen => 11
  | DECMode.Origin => 12
  | DECMode.AutoWrap => 13
  | DECMode.PrinterExtend => 14
  | DECMode.LeftRightMargin => 15
  | DECMode.ShowToolbar => 16
  | DECMode.BlinkingCursor => 17
  | DECMode.VisibleCursor => 18
  | DECMode.ShowScrollbar => 19
  | DECMode.AllowColumns80to132 => 20
  | DECMode.DebugLogging => 21
  | DECMode.UseAlternateScreen => 22
  | DECMode.BracketedPaste => 23
  | DECMode.FocusTracking => 24
  | DECMode.SixelScrolling => 25
  | DECMode.UsePrivateColorRegisters => 26
  | DECMode.MouseExtended => 1005
  | DECMode.MouseSGR => 1006
  | DECMode.MouseURXVT => 1015
  | DECMode.MouseAlternateScroll => 1007
  | DECMode.BatchedRendering => 2026
  | DECMode.TextReflow => 2027

/-- Models `toDECModeNum(DECMode)` from `Sequencer.h`: the explicit `switch`
mapping each enumerator to its VT private-mode number. -/
def toDECModeNum : DECMode → Int
  | DECMode.UseApplicationCursorKeys => 1
  | DECMode.DesignateCharsetUSASCII => 2
  | DECMode.Columns132 => 3
  | DECMode.SmoothScroll => 4
  | DECMode.ReverseVideo => 5
  | DECMode.Origin => 6
  | DECMode.AutoWrap => 7
  | DECMode.MouseProtocolX10 => 9
  | DECMode.ShowToolbar => 10
  | DECMode.BlinkingCursor => 12
  | DECMode.PrinterExtend => 19
  | DECMode.VisibleCursor => 25
  | DECMode.ShowScrollbar => 30
  | DECMode.AllowColumns80to132 => 40
  | DECMode.DebugLogging => 46
  | DECMode.UseAlternateScreen => 47
  | DECMode.LeftRightMargin => 69
  | DECMode.MouseProtocolNormalTracking => 1000
  | DECMode.MouseProtocolHighlightTracking => 1001
  | DECMode.MouseProtocolButtonTracking => 1002
  | DECMode.MouseProtocolAnyEventTracking => 1003
  | DECMode.SaveCursor => 1048
  | DECMode.ExtendedAltScreen => 1049
  | DECMode.BracketedPaste => 2004
  | DECMode.FocusTracking => 1004
  | DECMode.SixelScrolling => 80
  | DECMode.UsePrivateColorRegisters => 1070
  | DECMode.MouseExtended => 1005
  | DECMode.MouseSGR => 1006
  | DECMode.MouseURXVT => 1015
  | DECMode.MouseAlternateScroll => 1007
  | DECMode.BatchedRendering => 2026
  | DECMode.TextReflow => 2027

/-- All `DECMode` enumerators, in the order of the `case` labels of
`isValidDECMode` (which lists every enumerator). -/
def decModeCases : List DECMode :=
  [DECMode.UseApplicationCursorKeys, DECMode.DesignateCharsetUSASCII,
   DECMode.Columns132, DECMode.SmoothScroll, DECMode.ReverseVideo,
   DECMode.MouseProtocolX10, DECMode.MouseProtocolNormalTracking,
   DECMode.MouseProtocolHighlightTracking, DECMode.MouseProtocolButtonTracking,
   DECMode.MouseProtocolAnyEventTracking, DECMode.SaveCursor,
   DECMode.ExtendedAltScreen, DECMode.Origin, DECMode.AutoWrap,
   DECMode.PrinterExtend, DECMode.LeftRightMargin, DECMode.ShowToolbar,
   DECMode.BlinkingCursor, DECMode.VisibleCursor, DECMode.ShowScrollbar,
   DECMode.AllowColumns80to132, DECMode.DebugLogging,
   DECMode.UseAlternateScreen, DECMode.BracketedPaste, DECMode.FocusTracking,
   DECMode.SixelScrolling, DECMode.UsePrivateColorRegisters,
   DECMode.MouseExtended, DECMode.MouseSGR, DECMode.MouseURXVT,
   DECMode.MouseAlternateScroll, DECMode.BatchedRendering, DECMode.TextReflow]

/-- Models `isValidDECMode(int)` from `Sequencer.h`: a `switch` over
`static_cast<DECMode>(_mode)`; the input matches a `case` label exactly
when it equals that enumerator's underlying C++ value (NOT its
`toDECModeNum` number). -/
def isValidDECMode (mode : Int) : Bool :=
  decModeCases.any fun m => m.enumValue == mode

/-- Models `FunctionCategory` from `terminal/Functions.h` (not among the provided
sources).  Modelled from the spec: the category set
`{C0, C1, ESC, CSI, OSC, DCS}`; `Sequence::clear()` resets the category
to `C0`. -/
inductive FunctionCategory where
  | C0
  | C1
  | ESC
  | CSI
  | OSC
  | DCS
deriving DecidableEq

/-- Models `FunctionSelector` from `terminal/Functions.h` (not among the provided
sources).  Modelled from the spec and from its aggregate construction in
`Sequence::selector()`: `{category, leader, id, intermediate, final}`. -/
structure FunctionSelector where
  category : FunctionCategory
  leader : Nat
  id : Int
  intermediate : Nat
  finalSymbol : Nat
deriving DecidableEq

/-- Models `Sequence` from `Sequencer.h`: the parsed-but-not-yet-applied VT
function invocation.  Characters (`char`) are modelled as `Nat` codes;
the parameter list is a list of sub-parameter lists of `int`. -/
structure Sequence where
  category : FunctionCategory := FunctionCategory.C0
  leaderSymbol : Nat := 0
  parameters : List (List Int) := []
  intermediateCharacters : List Nat := []
  finalChar : Nat := 0
  dataString : List Nat := []
deriving DecidableEq

namespace Sequence

/-- Models `Sequence::MaxParameters`. -/
def MaxParameters : Nat := 16

/-- Models `Sequence::clear()`. -/
def clear (_s : Sequence) : Sequence :=
  { category := FunctionCategory.C0
    leaderSymbol := 0
    intermediateCharacters := []
    parameters := []
    finalChar := 0
    dataString := [] }

/-- Models `Sequence::setCategory`. -/
def setCategory (s : Sequence) (cat : FunctionCategory) : Sequence :=
  { s with category := cat }

/-- Models `Sequence::parameterCount()`. -/
def parameterCount (s : Sequence) : Nat := s.parameters.length

/-- Models `Sequence::param_opt(size_t)`: `some parameters_[i][0]` when `i` is in
range and that value is non-zero, `none` otherwise.  The inner `[0]`
access (defined in C++ only for a non-empty sub-parameter list) is
modelled by `headD 0`. -/
def param_opt (s : Sequence) (i : Nat) : Option Int :=
  if i < s.parameters.length ∧ (s.parameters.getD i []).headD 0 ≠ 0 then
    some ((s.parameters.getD i []).headD 0)
  else
    none

/-- Models `Sequence::param_or(size_t, Parameter)`:
`param_opt(i).value_or(default)`. -/
def param_or (s : Sequence) (i : Nat) (defaultValue : Int) : Int :=
  (s.param_opt i).getD defaultValue

/-- Models `Sequence::selector()`.  For the OSC category it builds
`FunctionSelector{category_, 0, parameters_[0][0], 0, 0}`; the two
subscripts are in bounds only when a first parameter with a first value
exists, so the access chain is modelled with `Option` (`none` standing
for the out-of-bounds access the C++ would perform).  For every other
category it is total. -/
def selector (s : Sequence) : Option FunctionSelector :=
  match s.category with
  | FunctionCategory.OSC =>
    match s.parameters.head? with
    | some p =>
      match p.head? with
      | some v => some ⟨s.category, 0, v, 0, 0⟩
      | none => none
    | none => none
  | _ =>
    let intermediate :=
      if s.intermediateCharacters.length = 1
      then s.intermediateCharacters.headD 0
      else 0
    some ⟨s.category, s.leaderSymbol, (s.parameters.length : Int),
          intermediate, s.finalChar⟩

end Sequence

/-! Concrete sample values, used to evaluate the definitions on explicit
inputs. -/

/-- A width function for concrete evaluations: every codepoint narrow. -/
def uw1 : Nat → Int := fun _ => 1

/-- A cell already holding `MaxCodepoints = 9` codepoints. -/
def fullCell : Cell :=
  { codepoints := [65, 66, 67, 68, 69, 70, 71, 72, 73] }

/-- The grid of the layout diagram in `Grid.h`: 4 scrollback lines plus a
4-line main page, 8 lines in total (so `historyLineCount = 4`). -/
def diagramGrid : Grid :=
  { screenSize := { width := 2, height := 4 }
    lines := List.replicate 8 {} }

/-- A small grid with one scrollback line and a 2×2 main page, each line
holding cells with distinct codepoints. -/
def sampleGrid : Grid :=
  { screenSize := { width := 2, height := 2 }
    lines :=
      [ { buffer := [{ codepoints := [10] }, { codepoints := [11] }] }
      , { buffer := [{ codepoints := [20] }, { codepoints := [21] }] }
      , { buffer := [{ codepoints := [30] }, { codepoints := [31] }] } ] }

/-- A short (1-cell) line, the top page line of `raggedGrid`. -/
def raggedLine : Line := { buffer := [{ codepoints := [2] }] }

/-- A grid whose main page has a short (1-cell) line, for exercising the
render padding: width 3, height 2, one scrollback line. -/
def raggedGrid : Grid :=
  { screenSize := { width := 3, height := 2 }
    lines :=
      [ { buffer := [{ codepoints := [1] }] }
      , raggedLine
      , { buffer := [{ codepoints := [3] }, { codepoints := [4] },
                     { codepoints := [5] }] } ] }

/-- A sequence with three parameters `5; 0; 3:1`. -/
def seqC6 : Sequence :=
  { category := FunctionCategory.CSI
    parameters := [[5], [0], [3, 1]] }

/-- An OSC sequence with numeric prefix 52. -/
def oscSeq : Sequence :=
  { category := FunctionCategory.OSC
    parameters := [[52]] }

/-! Theorems. -/

/-- C8: exactly 4 ANSI modes are recognized — `isValidAnsiMode n` holds
iff `n ∈ {2, 4, 12, 20}`, and every `AnsiMode` enumerator's mode number
is accepted. -/
theorem C8_ansi_mode_validity :
    (∀ n : Int, isValidAnsiMode n = true ↔ (n = 2 ∨ n = 4 ∨ n = 12 ∨ n = 20))
    ∧ ∀ m : AnsiMode, isValidAnsiMode (toAnsiModeNum m) = true := by
  constructor
  · intro n
    simp [isValidAnsiMode, ansiModeCases, AnsiMode.enumValue]
    omega
  · intro m
    cases m <;> decide

/-- C3 (code-bug evidence): `isValidDECMode` compares its argument against
the raw `DECMode` enumerator values, not the DEC private-mode numbers
produced by `toDECModeNum`.  Hence mode number 47 (`UseAlternateScreen`)
is rejected, mode 1000 (normal mouse tracking) is rejected, while the
meaningless value 22 (the raw position of `UseAlternateScreen` in the
enum) is accepted; only 18 of the 33 enumerators have their mode number
accepted. -/
theorem C3_decmode_validity_mismatch :
    toDECModeNum DECMode.UseAlternateScreen = 47
    ∧ isValidDECMode 47 = false
    ∧ isValidDECMode (toDECModeNum DECMode.UseAlternateScreen) = false
    ∧ isValidDECMode 1000 = false
    ∧ isValidDECMode 22 = true
    ∧ (decModeCases.filter fun m => isValidDECMode (toDECModeNum m)).length
        = 18 := by
  decide

/-- C2 (code-bug evidence): `toAbsoluteLine` and `toRelativeLine` are not
mutually inverse.  On the 8-line grid with a 4-line page documented in the
layout diagram of `Grid.h` (absolute line 4 = relative line 1 = main page
top), the round trips lose one: `toRelativeLine (toAbsoluteLine 1) = 0`
and `toAbsoluteLine (toRelativeLine 4) = 3`. -/
theorem C2_line_conversion_off_by_one :
    diagramGrid.historyLineCount = 4
    ∧ diagramGrid.toAbsoluteLine 1 = 4
    ∧ diagramGrid.toRelativeLine (diagramGrid.toAbsoluteLine 1) = 0
    ∧ diagramGrid.toAbsoluteLine (diagramGrid.toRelativeLine 4) = 3 := by
  decide

/-- C5: `Cell::appendCharacter` always returns width delta 0 and never
changes the width (the `AllowWidthChange = false` branch is dead, also
for the variation selectors U+FE0E/U+FE0F, which the theorem covers by
quantifying over every codepoint); attributes and hyperlink are
untouched, the image fragment is cleared, and the codepoint sequence
either stays as it was or grows by the appended codepoint. -/
theorem C5_append_width_unchanged (uwidth : Nat → Int) (c : Cell) (cp : Nat) :
    (c.appendCharacter uwidth cp).1 = 0
    ∧ (c.appendCharacter uwidth cp).2.width = c.width
    ∧ (c.appendCharacter uwidth cp).2.attributes = c.attributes
    ∧ (c.appendCharacter uwidth cp).2.hyperlink = c.hyperlink
    ∧ (c.appendCharacter uwidth cp).2.imageFragment = none
    ∧ ((c.appendCharacter uwidth cp).2.codepoints = c.codepoints
        ∨ (c.appendCharacter uwidth cp).2.codepoints = c.codepoints ++ [cp]) := by
  by_cases h9 : c.codepoints.length < Cell.MaxCodepoints <;>
    simp [Cell.appendCharacter, h9]

/-- C4: a cell never holds more than `MaxCodepoints = 9` codepoints —
`appendCharacter` on a full cell keeps the codepoint sequence and returns
0; both constructors and `setCharacter` produce at most one codepoint;
and every cell operation preserves the bound. -/
theorem C4_max_codepoints (uwidth : Nat → Int) (c c2 : Cell) (cp : Nat)
    (w : Int) (attrib : GraphicsAttributes) (frag : ImageFragment)
    (hfull : c.codepoints.length = Cell.MaxCodepoints)
    (hinv : c2.codepoints.length ≤ Cell.MaxCodepoints) :
    (c.appendCharacter uwidth cp).2.codepoints = c.codepoints
    ∧ (c.appendCharacter uwidth cp).1 = 0
    ∧ (Cell.make uwidth cp attrib).codepoints.length ≤ 1
    ∧ ({} : Cell).codepoints.length ≤ 1
    ∧ (c2.setCharacter uwidth cp).codepoints.length ≤ 1
    ∧ (c2.appendCharacter uwidth cp).2.codepoints.length ≤ Cell.MaxCodepoints
    ∧ (c2.reset attrib).codepoints.length ≤ Cell.MaxCodepoints
    ∧ (c2.setWidth w).codepoints.length ≤ Cell.MaxCodepoints
    ∧ (c2.setAttributes attrib).codepoints.length ≤ Cell.MaxCodepoints
    ∧ (c2.setImage frag).codepoints.length ≤ Cell.MaxCodepoints
    ∧ (c2.setCharacter uwidth cp).codepoints.length ≤ Cell.MaxCodepoints := by
  refine ⟨?_, ?_, ?_, ?_, ?_, ?_, ?_, ?_, ?_, ?_, ?_⟩
  · simp [Cell.appendCharacter, hfull]
  · simp [Cell.appendCharacter, hfull]
  · unfold Cell.make
    split <;> simp
  · simp
  · unfold Cell.setCharacter
    split <;> simp
  · unfold Cell.appendCharacter
    simp only [Cell.MaxCodepoints] at *
    repeat' split
    all_goals simp_all
    all_goals omega
  · simp [Cell.reset, Cell.MaxCodepoints]
  · simpa [Cell.setWidth] using hinv
  · simpa [Cell.setAttributes] using hinv
  · simp [Cell.setImage, Cell.MaxCodepoints]
  · unfold Cell.setCharacter
    split <;> simp [Cell.MaxCodepoints]

/-- C4 witness: the theorem applied to the 9-codepoint cell `fullCell`
and the empty default cell. -/
theorem C4_max_codepoints_witness :
    (fullCell.appendCharacter uw1 768).2.codepoints = fullCell.codepoints
    ∧ (fullCell.appendCharacter uw1 768).1 = 0
    ∧ (({} : Cell).appendCharacter uw1 65).2.codepoints.length
        ≤ Cell.MaxCodepoints := by
  have h := C4_max_codepoints uw1 fullCell {} 768 0 {} 0 (by decide) (by decide)
  exact ⟨h.1, h.2.1, h.2.2.2.2.2.1⟩

/-- C10: cell equality (`operator==`) only reads codepoint count,
codepoints and graphics attributes — two cells agreeing on those are
equal no matter their widths, hyperlinks or image fragments, and
`setWidth` never affects equality. -/
theorem C10_cell_eq_ignores_width (a b : Cell) (w w2 : Int)
    (_hcount : a.codepointCount = b.codepointCount)
    (hcps : a.codepoints = b.codepoints)
    (hattr : a.attributes = b.attributes) :
    cellEq a b = true
    ∧ cellEq (a.setWidth w) (b.setWidth w2) = cellEq a b := by
  constructor
  · simp [cellEq, Cell.codepointCount, hcps, hattr]
  · simp [cellEq, Cell.setWidth, Cell.codepointCount]

/-- C10 witness: two cells with the same codepoints and attributes but
different widths, hyperlinks and image fragments compare equal. -/
theorem C10_cell_eq_ignores_width_witness :
    cellEq { codepoints := [97], width := 1 }
      { codepoints := [97], width := 2, hyperlink := some 5,
        imageFragment := some 7 } = true := by
  have h := C10_cell_eq_ignores_width
    { codepoints := [97], width := 1 }
    { codepoints := [97], width := 2, hyperlink := some 5,
      imageFragment := some 7 } 0 0 (by decide) (by decide) (by decide)
  exact h.1

/-- C6: for a well-formed sequence (every parameter has at least one
value, as the parser guarantees), `param_or i d` yields the default `d`
exactly when `i` is out of range or the stored top-level parameter is 0,
and otherwise yields that stored parameter; equivalently `param_opt i` is
`none` in exactly those two cases. -/
theorem C6_param_default (s : Sequence) (i : Nat) (d : Int)
    (_hwf : ∀ p ∈ s.parameters, p ≠ []) :
    s.param_or i d
      = (if s.parameters.length ≤ i ∨ (s.parameters.getD i []).headD 0 = 0
         then d else (s.parameters.getD i []).headD 0)
    ∧ (s.param_opt i = none ↔
        (s.parameters.length ≤ i ∨ (s.parameters.getD i []).headD 0 = 0)) := by
  have hopt : s.param_opt i =
      (if i < s.parameters.length ∧ (s.parameters.getD i []).headD 0 ≠ 0
       then some ((s.parameters.getD i []).headD 0) else none) := rfl
  by_cases hr : i < s.parameters.length
  · by_cases h0 : (s.parameters.getD i []).headD 0 = 0
    · have hnone : s.param_opt i = none := by
        rw [hopt, if_neg]; exact fun hc => hc.2 h0
      constructor
      · unfold Sequence.param_or; rw [hnone, if_pos (Or.inr h0)]; rfl
      · rw [hnone]; exact ⟨fun _ => Or.inr h0, fun _ => rfl⟩
    · have hC : ¬ (s.parameters.length ≤ i ∨ (s.parameters.getD i []).headD 0 = 0) :=
        fun hc => hc.elim (Nat.not_le.mpr hr) h0
      have hsome : s.param_opt i = some ((s.parameters.getD i []).headD 0) := by
        rw [hopt, if_pos ⟨hr, h0⟩]
      constructor
      · unfold Sequence.param_or; rw [hsome, if_neg hC]; rfl
      · rw [hsome]
        exact ⟨fun hcon => absurd hcon (Option.some_ne_none _),
               fun hc => absurd hc hC⟩
  · have hnone : s.param_opt i = none := by
      rw [hopt, if_neg]; exact fun hc => hr hc.1
    have hle : s.parameters.length ≤ i := Nat.le_of_not_lt hr
    constructor
    · unfold Sequence.param_or; rw [hnone, if_pos (Or.inl hle)]; rfl
    · rw [hnone]; exact ⟨fun _ => Or.inl hle, fun _ => rfl⟩

/-- C6 witness: the theorem applied to the sequence `5; 0; 3:1` — the
zero parameter at index 1 and the missing index 5 both give the default,
the non-zero parameter at index 0 gives the stored value. -/
theorem C6_param_default_witness :
    seqC6.param_or 1 7 = 7
    ∧ seqC6.param_or 5 7 = 7
    ∧ seqC6.param_or 0 7 = 5 := by
  refine ⟨?_, ?_, ?_⟩
  · exact ((C6_param_default seqC6 1 7 (by decide)).1).trans (by decide)
  · exact ((C6_param_default seqC6 5 7 (by decide)).1).trans (by decide)
  · exact ((C6_param_default seqC6 0 7 (by decide)).1).trans (by decide)

/-- C9: `Sequence::selector()` on an OSC sequence with at least one
(non-empty) parameter returns `{OSC, 0, parameters[0][0], 0, 0}` with all
accesses in bounds, while on an OSC sequence with an empty parameter list
(such as one just reset by `clear()`) the access `parameters_[0][0]` is
out of bounds, modelled as `none`. -/
theorem C9_osc_selector (s t : Sequence)
    (hs : s.category = FunctionCategory.OSC)
    (hcount : 1 ≤ s.parameterCount)
    (hwf : ∀ p ∈ s.parameters, p ≠ [])
    (ht : t.category = FunctionCategory.OSC)
    (hempty : t.parameterCount = 0) :
    s.selector = some ⟨FunctionCategory.OSC, 0,
      (s.parameters.headD []).headD 0, 0, 0⟩
    ∧ t.selector = none := by
  constructor
  · cases hp : s.parameters with
    | nil => simp [Sequence.parameterCount, hp] at hcount
    | cons p ps =>
      have hpne : p ≠ [] := hwf p (by rw [hp]; exact List.mem_cons_self p ps)
      cases hv : p with
      | nil => exact absurd hv hpne
      | cons v vs => simp [Sequence.selector, hs, hp, hv]
  · have hnil : t.parameters = [] :=
      List.length_eq_zero.mp hempty
    simp [Sequence.selector, ht, hnil]

/-- C9 witness: the theorem applied to the OSC sequence with parameter 52
and to a cleared sequence re-tagged as OSC. -/
theorem C9_osc_selector_witness :
    oscSeq.selector = some ⟨FunctionCategory.OSC, 0, 52, 0, 0⟩
    ∧ ((({} : Sequence).clear).setCategory FunctionCategory.OSC).selector
        = none := by
  have h := C9_osc_selector oscSeq
    ((({} : Sequence).clear).setCategory FunctionCategory.OSC)
    (by decide) (by decide) (by decide) (by decide) (by decide)
  exact ⟨h.1, h.2⟩

/-- C1: for a valid coordinate (`1 - historyLineCount ≤ row ≤ height`,
`1 ≤ col ≤ width`, on a grid whose page fits in the line deque and whose
lines are `width` cells wide), `Grid::at` returns the cell at column
`col` of the absolute line `historyLineCount + row - 1` — so `row ≥ 1`
reads the main page and `row ≤ 0` reads the scrollback (row 0 being the
bottom scrollback line), columns being 1-based. -/
theorem C1_at_reads_absolute_line (g : Grid) (row col : Int)
    (_hH : 1 ≤ g.screenSize.height)
    (_hlen : g.screenSize.height ≤ (g.lines.length : Int))
    (hrow1 : 1 - g.historyLineCount ≤ row)
    (hrow2 : row ≤ g.screenSize.height)
    (hcol1 : 1 ≤ col)
    (hcol2 : col ≤ g.screenSize.width)
    (hwf : ∀ l ∈ g.lines, (l.buffer.length : Int) = g.screenSize.width) :
    g.atCoord row col = g.absoluteRead (g.historyLineCount + row - 1) col
    ∧ (g.atCoord row col).isSome = true := by
  simp only [Grid.historyLineCount] at hrow1 ⊢
  have habs : g.atCoord row col
      = g.absoluteRead ((g.lines.length : Int) - g.screenSize.height + row - 1)
          col := by
    unfold Grid.atCoord Grid.absoluteRead
    simp only [Grid.historyLineCount]
    by_cases hpos : row > 0
    · rw [if_pos hpos]
      congr 1
      unfold intNth
      have h1 : (0:Int) ≤ g.screenSize.height - row := by omega
      have h2 : (0:Int) ≤ (g.lines.length : Int) - g.screenSize.height + row - 1 := by
        omega
      rw [if_pos h1, if_pos h2]
      apply List.getElem?_reverse'
      omega
    · rw [if_neg hpos]
  refine ⟨habs, ?_⟩
  rw [habs]
  unfold Grid.absoluteRead intNth
  have h2 : (0:Int) ≤ (g.lines.length : Int) - g.screenSize.height + row - 1 := by
    omega
  have hidx : ((g.lines.length : Int) - g.screenSize.height + row - 1).toNat
      < g.lines.length := by omega
  rw [if_pos h2, List.getElem?_eq_getElem hidx]
  have hblen := hwf _ (List.getElem_mem hidx)
  have hc : (0:Int) ≤ col - 1 := by omega
  have hcidx : (col - 1).toNat
      < (g.lines[((g.lines.length : Int) - g.screenSize.height + row - 1).toNat]).buffer.length := by
    omega
  rw [Option.some_bind, if_pos hc, List.getElem?_eq_getElem hcidx]
  rfl

/-- C1 witness: the theorem applied to `sampleGrid` (history 1, 2×2 page)
at the bottom scrollback coordinate `{0, 2}` and at the main-page
coordinate `{2, 1}`. -/
theorem C1_at_reads_absolute_line_witness :
    (sampleGrid.atCoord 0 2
        = sampleGrid.absoluteRead (sampleGrid.historyLineCount + 0 - 1) 2
      ∧ (sampleGrid.atCoord 0 2).isSome = true)
    ∧ (sampleGrid.atCoord 2 1
        = sampleGrid.absoluteRead (sampleGrid.historyLineCount + 2 - 1) 1
      ∧ (sampleGrid.atCoord 2 1).isSome = true) := by
  constructor
  · exact C1_at_reads_absolute_line sampleGrid 0 2 (by decide) (by decide)
      (by decide) (by decide) (by decide) (by decide) (by decide)
  · exact C1_at_reads_absolute_line sampleGrid 2 1 (by decide) (by decide)
      (by decide) (by decide) (by decide) (by decide) (by decide)

/-- Every event emitted for one page line carries that line's row number. -/
theorem rowEvents_row (g : Grid) (r : Int) (line : Line) :
    ∀ e ∈ g.rowEvents r line, e.1 = r := by
  intro e he
  unfold Grid.rowEvents at he
  rcases List.mem_append.mp he with h | h
  · rcases List.mem_map.mp h with ⟨cc, _, rfl⟩; rfl
  · rcases List.mem_map.mp h with ⟨c, _, rfl⟩; rfl

/-- Every event emitted for the page lines indexed from `n` carries a row
number at least `n`. -/
theorem renderSeq_row_ge (g : Grid) (l : List Line) :
    ∀ (n : Int) (e : Int × Int × Cell),
      e ∈ (Grid.crispyIndexed n l).flatMap (fun rl => g.rowEvents rl.1 rl.2) →
      n ≤ e.1 := by
  induction l with
  | nil => intro n e he; simp [Grid.crispyIndexed] at he
  | cons x xs ih =>
    intro n e he
    simp only [Grid.crispyIndexed, List.flatMap_cons] at he
    rcases List.mem_append.mp he with h | h
    · have h1 := rowEvents_row g n x e h
      omega
    · have h1 := ih (n + 1) e h
      omega

/-- Filtering the render stream of the lines indexed from `n` down to row
number `n + i` yields exactly the events of the `i`-th line. -/
theorem renderSeq_filter (g : Grid) (l : List Line) :
    ∀ (n : Int) (i : Nat) (line : Line), l[i]? = some line →
      ((Grid.crispyIndexed n l).flatMap (fun rl => g.rowEvents rl.1 rl.2)).filter
          (fun e => decide (e.1 = n + (i : Int)))
        = g.rowEvents (n + (i : Int)) line := by
  induction l with
  | nil => intro n i line h; simp at h
  | cons x xs ih =>
    intro n i line h
    simp only [Grid.crispyIndexed, List.flatMap_cons, List.filter_append]
    cases i with
    | zero =>
      simp only [List.getElem?_cons_zero, Option.some_inj] at h
      subst h
      simp only [Nat.cast_zero, add_zero]
      have hkeep : (g.rowEvents n x).filter (fun e => decide (e.1 = n))
          = g.rowEvents n x := by
        apply List.filter_eq_self.mpr
        intro e he
        simp [rowEvents_row g n x e he]
      have hdrop :
          ((Grid.crispyIndexed (n + 1) xs).flatMap
              (fun rl => g.rowEvents rl.1 rl.2)).filter
            (fun e => decide (e.1 = n)) = [] := by
        apply List.filter_eq_nil_iff.mpr
        intro e he
        have := renderSeq_row_ge g xs (n + 1) e he
        simp only [decide_eq_true_eq]
        omega
      rw [hkeep, hdrop, List.append_nil]
    | succ j =>
      simp only [List.getElem?_cons_succ] at h
      have hdrop : (g.rowEvents n x).filter
          (fun e => decide (e.1 = n + ((j + 1 : Nat) : Int))) = [] := by
        apply List.filter_eq_nil_iff.mpr
        intro e he
        have := rowEvents_row g n x e he
        simp only [decide_eq_true_eq]
        push_cast
        omega
      have hcast : n + ((j + 1 : Nat) : Int) = (n + 1) + (j : Int) := by
        push_cast; ring
      rw [hdrop, List.nil_append, hcast]
      exact ih (n + 1) j line h

/-- The function `crispyIndexed` preserves length. -/
theorem crispyIndexed_length (l : List α) :
    ∀ n : Int, (Grid.crispyIndexed n l).length = l.length := by
  induction l with
  | nil => intro n; rfl
  | cons x xs ih => intro n; simp [Grid.crispyIndexed, ih]

/-- The list `crispyIndexed n l` is `l.enumFrom k` with the indices shifted by
`n - k`. -/
theorem crispyIndexed_eq_enumFrom (l : List α) :
    ∀ (n : Int) (k : Nat), Grid.crispyIndexed n l
      = (l.enumFrom k).map fun p => (n - (k : Int) + (p.1 : Int), p.2) := by
  induction l with
  | nil => intro n k; rfl
  | cons x xs ih =>
    intro n k
    simp only [Grid.crispyIndexed, List.enumFrom_cons, List.map_cons]
    congr 1
    · congr 1
      ring
    · rw [ih (n + 1) (k + 1)]
      apply List.map_congr_left
      intro p _
      congr 1
      push_cast
      ring

/-- The list `crispyIndexed n l` is `l.enum` with `n` added to each index. -/
theorem crispyIndexed_eq_enum (l : List α) (n : Int) :
    Grid.crispyIndexed n l = l.enum.map fun p => (n + (p.1 : Int), p.2) := by
  rw [List.enum_eq_enumFrom, crispyIndexed_eq_enumFrom l n 0]
  apply List.map_congr_left
  intro p _
  congr 1
  push_cast
  ring

/-- C7: for the page row at (0-based) index `i` of the page selected by
the scroll offset, `Grid::render` invokes the callback exactly
`max(line.size(), screenSize.width)` times for that row (1-based row
number `i + 1`): once per existing cell of the line, in order and with
1-based column numbers, then once per padding column from
`line.size() + 1` up to `screenSize.width` with a default-constructed
empty `Cell`. -/
theorem C7_render_pads_short_lines (g : Grid) (so : Option Int) (i : Nat)
    (line : Line) (h : (g.pageAtScrollOffset so)[i]? = some line) :
    ((g.render so).filter fun e => decide (e.1 = (i : Int) + 1))
      = g.rowEvents ((i : Int) + 1) line
    ∧ ((((g.render so).filter fun e => decide (e.1 = (i : Int) + 1)).length : Int)
        = max line.size g.screenSize.width)
    ∧ g.rowEvents ((i : Int) + 1) line
      = (line.buffer.enum.map fun jc =>
          (((i : Int) + 1, (jc.1 : Int) + 1, jc.2) : Int × Int × Cell))
        ++ ((List.range (g.screenSize.width.toNat - line.buffer.length)).map
            fun (k : Nat) => (((i : Int) + 1,
                       (line.buffer.length : Int) + 1 + (k : Int),
                       ({} : Cell)) : Int × Int × Cell)) := by
  have hrow : (1 : Int) + (i : Int) = (i : Int) + 1 := by ring
  have h1 : ((g.render so).filter fun e => decide (e.1 = (i : Int) + 1))
      = g.rowEvents ((i : Int) + 1) line := by
    have hf := renderSeq_filter g (g.pageAtScrollOffset so) 1 i line h
    rw [hrow] at hf
    exact hf
  refine ⟨h1, ?_, ?_⟩
  · rw [h1]
    unfold Grid.rowEvents Grid.crispyTimes
    simp only [List.length_append, List.length_map, List.length_range,
      crispyIndexed_length, Line.size]
    rcases le_total g.screenSize.width ((line.buffer.length : Int)) with hc | hc
    · rw [max_eq_left (by omega : g.screenSize.width
            - (line.buffer.length : Int) ≤ 0),
          max_eq_left hc]
      omega
    · rw [max_eq_right (by omega : (0:Int) ≤ g.screenSize.width
            - (line.buffer.length : Int)),
          max_eq_right hc]
      omega
  · unfold Grid.rowEvents Grid.crispyTimes
    congr 1
    · rw [crispyIndexed_eq_enum, List.map_map]
      apply List.map_congr_left
      intro p _
      simp only [Function.comp]
      simp [Prod.ext_iff]
      ring
    · have hN : (max 0 (g.screenSize.width - line.size)).toNat
          = g.screenSize.width.toNat - line.buffer.length := by
        simp only [Line.size]
        rcases le_total g.screenSize.width ((line.buffer.length : Int)) with hc | hc
        · rw [max_eq_left (by omega : g.screenSize.width
                - (line.buffer.length : Int) ≤ 0)]
          omega
        · rw [max_eq_right (by omega : (0:Int) ≤ g.screenSize.width
                - (line.buffer.length : Int))]
          omega
      rw [hN, List.map_map]
      apply List.map_congr_left
      intro k _
      simp only [Function.comp, Line.size]

/-- C7 witness: rendering `raggedGrid` (width 3) emits exactly
`max(1, 3) = 3` events for its short top page row. -/
theorem C7_render_pads_short_lines_witness :
    ((((raggedGrid.render none).filter fun e =>
        decide (e.1 = ((0 : Nat) : Int) + 1)).length : Int)
      = max raggedLine.size raggedGrid.screenSize.width)
    ∧ max raggedLine.size raggedGrid.screenSize.width = 3 := by
  refine ⟨(C7_render_pads_short_lines raggedGrid none 0 raggedLine
    (by decide)).2.1, by decide⟩

end Contour
